import Mathlib

/-!
Verification development for the wrappai persistence data model.

The embedding below translates the TypeORM entity declarations and the
notification compression hooks of the repository into Lean definitions.
Buffers and strings are modelled as lists of natural numbers (bytes,
respectively Unicode code points).  The external `node:zlib` codec and the
operations the specification describes but the repository does not define
(`markSent`, `markFailed`, `recordInteraction`, store-level uniqueness
enforcement) are modelled from the specification and marked as such in
their doc comments.
-/

namespace Wrappai

/-! ## UTF-8 conversion model

Node converts between `Buffer` and `string` via UTF-8:
`buffer.toString("utf-8")` decodes lossily, replacing every invalid byte
sequence with U+FFFD, and `Buffer.from(string)` / passing a string to
`zlib.deflate` encodes the string as UTF-8 bytes.  We model a string as a
list of Unicode code points and a buffer as a list of bytes. -/

/-- Whether a byte is a UTF-8 continuation byte (0x80..0xBF). -/
def isCont (b : Nat) : Bool := 0x80 ≤ b && b ≤ 0xBF

/-- Valid second byte of a three-byte sequence led by `b1` (excludes
overlong encodings and surrogates, as WHATWG / Node decoding does). -/
def isCont2 (b1 b2 : Nat) : Bool :=
  if b1 = 0xE0 then 0xA0 ≤ b2 && b2 ≤ 0xBF
  else if b1 = 0xED then 0x80 ≤ b2 && b2 ≤ 0x9F
  else isCont b2

/-- Valid second byte of a four-byte sequence led by `b1`. -/
def isCont3 (b1 b2 : Nat) : Bool :=
  if b1 = 0xF0 then 0x90 ≤ b2 && b2 ≤ 0xBF
  else if b1 = 0xF4 then 0x80 ≤ b2 && b2 ≤ 0x8F
  else isCont b2

/-- Expected total length of a UTF-8 sequence led by byte `b`; 0 when `b`
is not a valid lead byte. -/
def leadLen (b : Nat) : Nat :=
  if b < 0x80 then 1
  else if 0xC2 ≤ b && b ≤ 0xDF then 2
  else if 0xE0 ≤ b && b ≤ 0xEF then 3
  else if 0xF0 ≤ b && b ≤ 0xF4 then 4
  else 0

/-- Expected total length of the sequence an incomplete prefix belongs to. -/
def leadLenOf : List Nat → Nat
  | b1 :: _ => leadLen b1
  | [] => 0

/-- Whether `b` is acceptable as the next byte after the incomplete
sequence prefix `pending`. -/
def contOk (pending : List Nat) (b : Nat) : Bool :=
  match pending with
  | [b1] =>
    if leadLen b1 = 3 then isCont2 b1 b
    else if leadLen b1 = 4 then isCont3 b1 b
    else isCont b
  | _ => isCont b

/-- The code point of a complete UTF-8 sequence. -/
def cpOf : List Nat → Nat
  | [a] => a
  | [a, b2] => (a - 0xC0) * 0x40 + (b2 - 0x80)
  | [a, b2, b3] => (a - 0xE0) * 0x1000 + (b2 - 0x80) * 0x40 + (b3 - 0x80)
  | [a, b2, b3, b4] =>
    (a - 0xF0) * 0x40000 + (b2 - 0x80) * 0x1000 + (b3 - 0x80) * 0x40 +
      (b4 - 0x80)
  | _ => 0xFFFD

/-- Decoder action on byte `b` arriving with no incomplete sequence:
emitted code points and the new incomplete prefix. -/
def utf8start (b : Nat) : List Nat × List Nat :=
  if leadLen b = 1 then ([b], [])
  else if leadLen b = 0 then ([0xFFFD], [])
  else ([], [b])

/-- One decoder step: consumes byte `b` given the incomplete prefix
`pending`; an invalid continuation emits U+FFFD and reprocesses `b` as a
fresh lead byte. -/
def utf8step (pending : List Nat) (b : Nat) : List Nat × List Nat :=
  if pending.isEmpty then utf8start b
  else if contOk pending b then
    if pending.length + 1 = leadLenOf pending then ([cpOf (pending ++ [b])], [])
    else ([], pending ++ [b])
  else (0xFFFD :: (utf8start b).1, (utf8start b).2)

/-- Run of the decoder over the remaining bytes; a trailing incomplete
sequence becomes one U+FFFD. -/
def utf8decGo (pending : List Nat) : List Nat → List Nat
  | [] => if pending.isEmpty then [] else [0xFFFD]
  | b :: rest =>
    (utf8step pending b).1 ++ utf8decGo (utf8step pending b).2 rest

/-- Lossy UTF-8 decoding, the model of `Buffer.prototype.toString("utf-8")`:
bytes to code points, invalid sequences become U+FFFD (0xFFFD). -/
def utf8decodeLossy (l : List Nat) : List Nat := utf8decGo [] l

/-- UTF-8 encoding of a single code point. -/
def utf8encodeChar (c : Nat) : List Nat :=
  if c < 0x80 then [c]
  else if c < 0x800 then [0xC0 + c / 0x40, 0x80 + c % 0x40]
  else if c < 0x10000 then
    [0xE0 + c / 0x1000, 0x80 + c / 0x40 % 0x40, 0x80 + c % 0x40]
  else
    [0xF0 + c / 0x40000, 0x80 + c / 0x1000 % 0x40,
      0x80 + c / 0x40 % 0x40, 0x80 + c % 0x40]

/-- UTF-8 encoding of a string (list of code points), the model of
`Buffer.from(string)` and of the string-to-bytes step inside
`zlib.deflate(string)`. -/
def utf8encode (s : List Nat) : List Nat :=
  (s.map utf8encodeChar).flatten

/-! ## zlib codec model -/

/-- Modelled from the spec: the external `node:zlib` `deflate` used by
`Notification.compressMessage` is, per the specification, a deterministic
lossless byte-compression transform invertible by `decompress`.  It is
modelled as a zlib container (header bytes 0x78 0x9C) around a stored
payload, which is deterministic, lossless and invertible, and for which
invalid streams exist. -/
def deflateBytes (l : List Nat) : List Nat := 0x78 :: 0x9C :: l

/-- Modelled from the spec: the external `node:zlib` `unzip` used by
`Notification.getMessage`, the inverse of `deflateBytes`; fails (`none`)
on bytes that are not a valid compressed stream. -/
def unzipBytes : List Nat → Option (List Nat)
  | 0x78 :: 0x9C :: l => some l
  | _ => none

theorem unzip_deflate (l : List Nat) : unzipBytes (deflateBytes l) = some l := rfl

/-! ## Notification entity (src/src/domain/notification/entities/notification.entity.ts) -/

/-- A JavaScript value sitting in the `message` field at run time: unset
(`undefined` / `null`), a string, or a `Buffer`. -/
inductive MsgVal where
  | unset : MsgVal
  | str : List Nat → MsgVal
  | buf : List Nat → MsgVal
deriving DecidableEq

/-- JavaScript truthiness of the `message` value, the guard
`if (this.message)` of the hook: `undefined`/`null` and the empty string
are falsy; every `Buffer` object (even empty) is truthy. -/
def MsgVal.truthy : MsgVal → Bool
  | .unset => false
  | .str s => !s.isEmpty
  | .buf _ => true

/-- The `this.message.toString("utf-8")` step of the hook (only reached
when the guard holds, so the unset case is unreachable there): a string
returns itself, a buffer is decoded lossily. -/
def MsgVal.toStringUtf8 : MsgVal → List Nat
  | .unset => []
  | .str s => s
  | .buf b => utf8decodeLossy b

/-- `Buffer.from(this.message)`: throws (`none`) on an unset value, encodes
a string as UTF-8, copies a buffer. -/
def MsgVal.bufferFrom : MsgVal → Option (List Nat)
  | .unset => none
  | .str s => some (utf8encode s)
  | .buf b => some b

/-- Notification channel column: enum ("email", "SMS", "WhatsApp"),
default "WhatsApp". -/
inductive Channel where
  | email : Channel
  | sms : Channel
  | whatsapp : Channel
deriving DecidableEq

/-- Notification status column: enum ("pending", "sent", "failed"),
default "pending". -/
inductive NStatus where
  | pending : NStatus
  | sent : NStatus
  | failed : NStatus
deriving DecidableEq

/-- The Notification entity columns and relations.  Related entities are
referenced by their uuid; timestamps are naturals. -/
structure Notification where
  studio : Option String
  user : Option String
  channel : Channel
  message : MsgVal
  status : NStatus
  sendAt : Nat
  deliveredAt : Option Nat
  errorLog : Option (List Nat)
  subject : Option (List Nat)
deriving DecidableEq

/-- The `compressMessage` BeforeInsert/BeforeUpdate hook, parametrised by
the outcome of the deflate call (`none` models a deflate failure).  The
source guards on `if (this.message)`, deflates the UTF-8 string view of
the message, and catches any error with `console.error` only, so on a
failure the entity is returned unchanged and the write proceeds. -/
def compressMessageWith (defl : List Nat → Option (List Nat))
    (n : Notification) : Notification :=
  if n.message.truthy then
    match defl (utf8encode n.message.toStringUtf8) with
    | some c => { n with message := MsgVal.buf c }
    | none => n
  else n

/-- The `compressMessage` hook with the (never-failing) zlib deflate. -/
def compressMessage (n : Notification) : Notification :=
  compressMessageWith (fun b => some (deflateBytes b)) n

/-- `getMessage`: builds a buffer from the stored message (`none` models
the TypeError thrown by `Buffer.from(undefined)`), tries to unzip it, and
on a decompression error catches it with `console.error` only and returns
the initial empty string. -/
def getMessage (n : Notification) : Option (List Nat) :=
  match n.message.bufferFrom with
  | none => none
  | some buffer =>
    some (match unzipBytes buffer with
          | some d => utf8decodeLossy d
          | none => [])

/-! ## Domain error taxonomy (spec section 7) -/

/-- The error taxonomy of the specification: ValidationError, ConflictError,
InvalidStateError, CompressionError, DecompressionError. -/
inductive DomainError where
  | validationError : DomainError
  | conflictError : DomainError
  | invalidStateError : DomainError
  | compressionError : DomainError
  | decompressionError : DomainError
deriving DecidableEq

/-! ## Notification status transitions -/

/-- Modelled from the spec: `markSent(deliveredAt)` is described in the
specification (section 4.4) but not defined in the repository source, which
only declares the `status` column; per the spec it is valid only from
`pending`, sets `status = sent` and `deliveredAt`, and fails with
`InvalidStateError` otherwise. -/
def markSent (n : Notification) (t : Nat) : Except DomainError Notification :=
  match n.status with
  | NStatus.pending => Except.ok { n with status := NStatus.sent, deliveredAt := some t }
  | _ => Except.error DomainError.invalidStateError

/-- Modelled from the spec: `markFailed(errorLog)` is described in the
specification (section 4.4) but not defined in the repository source; per
the spec it is valid only from `pending`, sets `status = failed` and
`errorLog`, and fails with `InvalidStateError` otherwise. -/
def markFailed (n : Notification) (e : List Nat) : Except DomainError Notification :=
  match n.status with
  | NStatus.pending => Except.ok { n with status := NStatus.failed, errorLog := some e }
  | _ => Except.error DomainError.invalidStateError

/-! ## MediaInteraction entity (appended to
src/src/domain/media/entities/music.entity.ts) -/

/-- The MediaInteraction entity: interaction type, timestamp, the owning
user, and four nullable many-to-one target references (music, photo,
video, playlist), each stored here as the referenced uuid. -/
structure MediaInteraction where
  interactionType : String
  timestamp : Nat
  user : String
  music : Option String
  photo : Option String
  video : Option String
  playlist : Option String
deriving DecidableEq

/-- Number of non-null target references among the four target fields. -/
def targetCountOf (m p v pl : Option String) : Nat :=
  (if m.isSome then 1 else 0) + (if p.isSome then 1 else 0) +
    (if v.isSome then 1 else 0) + (if pl.isSome then 1 else 0)

/-- Number of non-null target references of an interaction record. -/
def MediaInteraction.targetCount (r : MediaInteraction) : Nat :=
  targetCountOf r.music r.photo r.video r.playlist

/-- Modelled from the spec: `recordInteraction(user, target,
interactionType, timestamp)` (section 4.3) is not defined in the
repository source, which only declares the entity; per the spec it creates
exactly one immutable record and fails with `ValidationError` if the
target does not resolve to exactly one of the four allowed kinds or if the
user does not exist. -/
def recordInteraction (userExists : Bool) (ity : String) (ts : Nat)
    (u : String) (m p v pl : Option String) :
    Except DomainError MediaInteraction :=
  if !userExists then Except.error DomainError.validationError
  else if targetCountOf m p v pl = 1 then
    Except.ok (MediaInteraction.mk ity ts u m p v pl)
  else Except.error DomainError.validationError

/-! ## Relation metadata of the entity declarations -/

/-- Names of the entity classes of the repository. -/
inductive EntityName where
  | music : EntityName
  | photo : EntityName
  | video : EntityName
  | playlist : EntityName
  | studio : EntityName
  | user : EntityName
  | device : EntityName
  | notification : EntityName
  | mediaInteraction : EntityName
deriving DecidableEq

/-- A `@ManyToOne` relation declaration: the declaring entity, the field
name, the entity returned by the decorator's target function `() => X`,
the entity named by the TypeScript property type `Relation<Y> | null`, and
its nullability. -/
structure ManyToOneDecl where
  source : EntityName
  fieldName : String
  decoratorTarget : EntityName
  declaredType : EntityName
  nullable : Bool
deriving DecidableEq

/-- `Music.playlist`: `@ManyToOne(() => Music, (music) => music.playlist,
{ nullable: true }) playlist: Relation<Playlist> | null`. -/
def musicPlaylistRel : ManyToOneDecl :=
  ManyToOneDecl.mk EntityName.music "playlist" EntityName.music EntityName.playlist true

/-- `Photo.playlist`: `@ManyToOne(() => Photo, (photo) => photo.playlist,
{ nullable: true }) playlist: Relation<Playlist> | null` (both Photo
declarations carry the same relation). -/
def photoPlaylistRel : ManyToOneDecl :=
  ManyToOneDecl.mk EntityName.photo "playlist" EntityName.photo EntityName.playlist true

/-- `Video.playlist`: `@ManyToOne(() => Video, (video) => video.playlist,
{ nullable: true }) playlist: Relation<Playlist> | null` (both Video
declarations carry the same relation). -/
def videoPlaylistRel : ManyToOneDecl :=
  ManyToOneDecl.mk EntityName.video "playlist" EntityName.video EntityName.playlist true

/-! ## Column metadata of the media entity declarations -/

/-- A `@Column` declaration: column name, nullability, and the declared
default value (rendered as a string), if any. -/
structure ColumnDecl where
  colName : String
  nullable : Bool
  defaultVal : Option String
deriving DecidableEq

/-- Columns of the abstract `BaseMediaItem` class (src/unnamed/part_003):
shared media attributes, lifecycle, versioning, file storage, tracking and
DRM fields. -/
def baseMediaItemCols : List ColumnDecl :=
  [ColumnDecl.mk "url" false none,
   ColumnDecl.mk "title" false none,
   ColumnDecl.mk "description" true none,
   ColumnDecl.mk "status" false (some "active"),
   ColumnDecl.mk "archivedAt" true none,
   ColumnDecl.mk "deletedAt" true none,
   ColumnDecl.mk "version" false (some "1"),
   ColumnDecl.mk "availableFormats" true none,
   ColumnDecl.mk "fileSize" false none,
   ColumnDecl.mk "format" false none,
   ColumnDecl.mk "mimeType" false none,
   ColumnDecl.mk "storagePath" false none,
   ColumnDecl.mk "checksum" true none,
   ColumnDecl.mk "storageProvider" false none,
   ColumnDecl.mk "hostingLocation" false none,
   ColumnDecl.mk "viewCount" false (some "0"),
   ColumnDecl.mk "downloadCount" false (some "0"),
   ColumnDecl.mk "lastAccessedAt" true none,
   ColumnDecl.mk "drmProtected" false (some "false"),
   ColumnDecl.mk "drmType" true none,
   ColumnDecl.mk "licenseExpiryDate" true none,
   ColumnDecl.mk "regionRestrictions" true none,
   ColumnDecl.mk "downloadAllowed" false (some "false"),
   ColumnDecl.mk "streamingAllowed" false (some "true")]

/-- Columns of the `Music` entity
(src/src/domain/media/entities/music.entity.ts), which extends
`BaseUUIDEntity` directly. -/
def musicCols : List ColumnDecl :=
  [ColumnDecl.mk "url" false none,
   ColumnDecl.mk "title" false none,
   ColumnDecl.mk "artist" false none,
   ColumnDecl.mk "album" true none,
   ColumnDecl.mk "genre" true none,
   ColumnDecl.mk "duration" false none,
   ColumnDecl.mk "format" false none,
   ColumnDecl.mk "releasedAt" false none]

/-- Columns of the `Photo` entity extending `BaseMediaItem`
(first declaration in src/src/domain/media/entities/photo.entity.ts). -/
def photoMediaItemCols : List ColumnDecl :=
  baseMediaItemCols ++
    [ColumnDecl.mk "height" false none,
     ColumnDecl.mk "width" false none,
     ColumnDecl.mk "capturedAt" false none]

/-- Columns of the `Video` entity extending `BaseMediaItem`
(src/unnamed/part_000). -/
def videoMediaItemCols : List ColumnDecl :=
  baseMediaItemCols ++
    [ColumnDecl.mk "duration" false none,
     ColumnDecl.mk "resolution" false none,
     ColumnDecl.mk "codec" false none,
     ColumnDecl.mk "frameRate" false none,
     ColumnDecl.mk "uploadedAt" false none]

/-- Columns of the `Video` entity extending `BaseUUIDEntity`
(src/src/domain/media/entities/video.entity.ts). -/
def videoUUIDCols : List ColumnDecl :=
  [ColumnDecl.mk "url" false none,
   ColumnDecl.mk "title" false none,
   ColumnDecl.mk "description" true none,
   ColumnDecl.mk "duration" false none,
   ColumnDecl.mk "resolution" false none,
   ColumnDecl.mk "format" false none,
   ColumnDecl.mk "uploadedAt" false none]

/-- Whether a column with the given name is declared. -/
def hasCol (cols : List ColumnDecl) (nm : String) : Bool :=
  cols.any (fun c => c.colName = nm)

/-- The shared media-asset attribute set of the specification: required
`url` and `title`, optional `description`, lifecycle `status` defaulting
to active, `version` starting at 1, file storage fields, counters and the
DRM block. -/
def sharedMediaAssetCols : List ColumnDecl :=
  [ColumnDecl.mk "url" false none,
   ColumnDecl.mk "title" false none,
   ColumnDecl.mk "description" true none,
   ColumnDecl.mk "status" false (some "active"),
   ColumnDecl.mk "version" false (some "1"),
   ColumnDecl.mk "fileSize" false none,
   ColumnDecl.mk "format" false none,
   ColumnDecl.mk "mimeType" false none,
   ColumnDecl.mk "storagePath" false none,
   ColumnDecl.mk "storageProvider" false none,
   ColumnDecl.mk "hostingLocation" false none,
   ColumnDecl.mk "viewCount" false (some "0"),
   ColumnDecl.mk "downloadCount" false (some "0"),
   ColumnDecl.mk "drmProtected" false (some "false"),
   ColumnDecl.mk "drmType" true none,
   ColumnDecl.mk "licenseExpiryDate" true none,
   ColumnDecl.mk "regionRestrictions" true none,
   ColumnDecl.mk "downloadAllowed" false (some "false"),
   ColumnDecl.mk "streamingAllowed" false (some "true")]

/-! ## User entity (src/src/domain/user/entities/user.entity.ts) -/

/-- The User entity columns; `email` is declared unique and required,
`phoneNumber` unique and nullable. -/
structure UserRec where
  accountType : Option String
  channel : Option String
  phoneNumber : Option String
  secondaryPhoneNumber : Option String
  email : String
  secondaryEmail : Option String
  validatedPhoneNumber : Bool
  validatedEmail : Bool
  pin : String
  passwordHash : String
  dateOfBirth : Option Nat
deriving DecidableEq

/-- Modelled from the spec: the store-level enforcement of the `unique:
true` constraints declared on `User.email` and `User.phoneNumber` is
performed by the database (section 5: enforced by the store's uniqueness
constraint, not by application-level locking) and is not part of the
repository source; a violating insert fails with `ConflictError` and
leaves the store unchanged. -/
def insertUser (store : List UserRec) (u : UserRec) :
    Except DomainError (List UserRec) :=
  if store.any (fun w => w.email = u.email) then
    Except.error DomainError.conflictError
  else if (match u.phoneNumber with
           | some p => store.any (fun w => w.phoneNumber = some p)
           | none => false) then
    Except.error DomainError.conflictError
  else Except.ok (store ++ [u])

/-! ## Concrete sample records used by witnesses -/

/-- A pending notification with message "H". -/
def pendingNotif : Notification :=
  Notification.mk none none Channel.email (MsgVal.buf [72]) NStatus.pending 5
    none none none

/-- Sample user with email "a@x.com" and phone "111". -/
def userA : UserRec :=
  UserRec.mk none none (some "111") none "a@x.com" none false false "0000"
    "hash" none

/-- Sample user sharing userA's email. -/
def userB : UserRec :=
  UserRec.mk none none none none "a@x.com" none false false "1111" "hash2" none

/-- Sample user sharing userA's phone number. -/
def userC : UserRec :=
  UserRec.mk none none (some "111") none "b@x.com" none false false "2222"
    "hash3" none

end Wrappai

namespace Wrappai

/-! ## Claim theorems -/

/-- C1 (counterexample): the round trip is not lossless for all byte
sequences.  For the message buffer [0xFF], which is not valid UTF-8, the
bytes recovered by `getMessage` after the `compressMessage` hook differ
from the original: the hook's `toString("utf-8")` step replaces invalid
bytes with U+FFFD before compressing. -/
theorem c1_roundtrip_not_lossless_for_all_bytes :
    Option.map utf8encode (getMessage (compressMessage
      (Notification.mk none none Channel.whatsapp (MsgVal.buf [0xFF])
        NStatus.pending 0 none none none))) ≠ some [0xFF] := by decide

/-- C1 (amended): for every message buffer that is a valid UTF-8 encoding
(equivalently, any message that originated as a string), `getMessage`
after the `compressMessage` hook recovers exactly the original content. -/
theorem c1_roundtrip_exact_on_utf8 (n : Notification) (b : List Nat)
    (hm : n.message = MsgVal.buf b)
    (hv : utf8encode (utf8decodeLossy b) = b) :
    Option.map utf8encode (getMessage (compressMessage n)) = some b := by
  have h1 : compressMessage n =
      { n with message :=
          MsgVal.buf (deflateBytes (utf8encode (utf8decodeLossy b))) } := by
    unfold compressMessage compressMessageWith
    rw [hm]
    rfl
  rw [h1]
  show some (utf8encode (utf8decodeLossy (utf8encode (utf8decodeLossy b)))) =
    some b
  rw [hv, hv]

/-- C1 (witness): the round-trip theorem applied to the message "Hello". -/
theorem c1_roundtrip_witness :
    Option.map utf8encode (getMessage (compressMessage
      (Notification.mk none none Channel.email
        (MsgVal.buf [72, 101, 108, 108, 111]) NStatus.pending 0 none none
        none))) = some [72, 101, 108, 108, 111] :=
  c1_roundtrip_exact_on_utf8 _ _ rfl (by decide)

/-- C2 (code_bug evidence): on a stored message buffer [0x00], which is not
a valid compressed stream, `getMessage` catches the decompression error,
logs it, and returns the empty string instead of failing with
DecompressionError. -/
theorem c2_getMessage_swallows_decompression_fault :
    getMessage (Notification.mk none none Channel.whatsapp (MsgVal.buf [0x00])
      NStatus.pending 0 none none none) = some [] := by decide

/-- C3 (code_bug evidence): when the deflate transform fails, the
`compressMessage` hook catches the error with a console log only and
returns the entity unchanged, so the write path proceeds and the raw
plaintext message is persisted — the write is not aborted with
CompressionError. -/
theorem c3_compression_fault_persists_plaintext (n : Notification) :
    compressMessageWith (fun _ => none) n = n := by
  unfold compressMessageWith
  split
  · rfl
  · rfl

/-- C4 (code_bug evidence): the hook runs unconditionally on every update,
so a second run on an already-compressed buffer changes the stored bytes
(the compressed buffer is reinterpreted as UTF-8 text and compressed
again), even though the logical content did not change. -/
theorem c4_hook_double_compresses :
    (compressMessage (compressMessage
      (Notification.mk none none Channel.whatsapp (MsgVal.buf [0x41])
        NStatus.pending 0 none none none))).message ≠
    (compressMessage
      (Notification.mk none none Channel.whatsapp (MsgVal.buf [0x41])
        NStatus.pending 0 none none none)).message := by decide

/-- C5: the notification status is a one-way state machine.  From pending,
`markSent` and `markFailed` succeed and set status together with
deliveredAt respectively errorLog; on the resulting sent or failed
notification, both transitions fail with InvalidStateError and return no
modified entity, so the values set by the first successful transition
stand. -/
theorem c5_notification_state_machine (n : Notification) (t t2 : Nat)
    (e e2 : List Nat) (h : n.status = NStatus.pending) :
    markSent n t =
      Except.ok { n with status := NStatus.sent, deliveredAt := some t } ∧
    markFailed n e =
      Except.ok { n with status := NStatus.failed, errorLog := some e } ∧
    markSent { n with status := NStatus.sent, deliveredAt := some t } t2 =
      Except.error DomainError.invalidStateError ∧
    markFailed { n with status := NStatus.sent, deliveredAt := some t } e =
      Except.error DomainError.invalidStateError ∧
    markSent { n with status := NStatus.failed, errorLog := some e } t2 =
      Except.error DomainError.invalidStateError ∧
    markFailed { n with status := NStatus.failed, errorLog := some e } e2 =
      Except.error DomainError.invalidStateError := by
  refine ⟨?_, ?_, rfl, rfl, rfl, rfl⟩
  · unfold markSent
    rw [h]
  · unfold markFailed
    rw [h]

/-- C5 (witness): the state-machine theorem applied to a concrete pending
notification. -/
theorem c5_state_machine_witness :
    pendingNotif.status = NStatus.pending ∧
    (markSent pendingNotif 7 =
      Except.ok { pendingNotif with status := NStatus.sent, deliveredAt := some 7 } ∧
    markFailed pendingNotif [101] =
      Except.ok { pendingNotif with status := NStatus.failed, errorLog := some [101] } ∧
    markSent { pendingNotif with status := NStatus.sent, deliveredAt := some 7 } 8 =
      Except.error DomainError.invalidStateError ∧
    markFailed { pendingNotif with status := NStatus.sent, deliveredAt := some 7 } [101] =
      Except.error DomainError.invalidStateError ∧
    markSent { pendingNotif with status := NStatus.failed, errorLog := some [101] } 8 =
      Except.error DomainError.invalidStateError ∧
    markFailed { pendingNotif with status := NStatus.failed, errorLog := some [101] } [102] =
      Except.error DomainError.invalidStateError) :=
  ⟨rfl, c5_notification_state_machine pendingNotif 7 8 [101] [102] rfl⟩

/-- C6: an interaction record created by `recordInteraction` references
exactly one target, and a create call with two or more of the four target
references set is rejected with ValidationError. -/
theorem c6_interaction_single_target (ue : Bool) (ity : String) (ts : Nat)
    (u : String) (m p v pl : Option String) :
    (∀ r, recordInteraction ue ity ts u m p v pl = Except.ok r →
      r.targetCount = 1) ∧
    (2 ≤ targetCountOf m p v pl →
      recordInteraction ue ity ts u m p v pl =
        Except.error DomainError.validationError) := by
  constructor
  · intro r hr
    unfold recordInteraction at hr
    split at hr
    · exact Except.noConfusion hr
    · split at hr
      · rename_i hc
        injection hr with hr
        subst hr
        exact hc
      · exact Except.noConfusion hr
  · intro h2
    unfold recordInteraction
    split
    · rfl
    · split
      · rename_i hc
        omega
      · rfl

/-- C6 (witness): the mutual-exclusivity theorem applied to a create call
with both the music and the photo reference set. -/
theorem c6_interaction_witness :
    2 ≤ targetCountOf (some "m1") (some "p1") none none ∧
    recordInteraction true "WATCHED" 3 "u1" (some "m1") (some "p1") none
      none = Except.error DomainError.validationError :=
  ⟨by decide,
   (c6_interaction_single_target true "WATCHED" 3 "u1" (some "m1")
     (some "p1") none none).2 (by decide)⟩

/-- C7 (code_bug evidence): the playlist relation of each media entity is
nullable, but its decorator target is the entity's own class (Music, Photo,
Video), not Playlist — contradicting the declared property type
`Relation<Playlist>` of the same field. -/
theorem c7_playlist_relations_target_own_type :
    (musicPlaylistRel.decoratorTarget = EntityName.music ∧
     musicPlaylistRel.declaredType = EntityName.playlist ∧
     musicPlaylistRel.decoratorTarget ≠ musicPlaylistRel.declaredType ∧
     musicPlaylistRel.nullable = true) ∧
    (photoPlaylistRel.decoratorTarget = EntityName.photo ∧
     photoPlaylistRel.declaredType = EntityName.playlist ∧
     photoPlaylistRel.decoratorTarget ≠ photoPlaylistRel.declaredType ∧
     photoPlaylistRel.nullable = true) ∧
    (videoPlaylistRel.decoratorTarget = EntityName.video ∧
     videoPlaylistRel.declaredType = EntityName.playlist ∧
     videoPlaylistRel.decoratorTarget ≠ videoPlaylistRel.declaredType ∧
     videoPlaylistRel.nullable = true) := by decide

/-- C8 (counterexample): the Music entity does not carry the shared
media-asset attribute set — it declares no description, lifecycle status,
version, fileSize, viewCount or drmProtected column. -/
theorem c8_music_lacks_shared_media_fields :
    hasCol musicCols "description" = false ∧
    hasCol musicCols "status" = false ∧
    hasCol musicCols "version" = false ∧
    hasCol musicCols "fileSize" = false ∧
    hasCol musicCols "viewCount" = false ∧
    hasCol musicCols "drmProtected" = false := by decide

/-- C8 (amended): the BaseMediaItem-based Photo and Video declarations
carry every column of the shared media-asset attribute set with the
declared nullability and defaults; the Music declaration carries only url
and title of that set, and the BaseUUIDEntity-based Video declaration also
lacks the lifecycle, storage, counter and DRM columns. -/
theorem c8_shared_media_fields_amended :
    (∀ c ∈ sharedMediaAssetCols, c ∈ photoMediaItemCols) ∧
    (∀ c ∈ sharedMediaAssetCols, c ∈ videoMediaItemCols) ∧
    hasCol musicCols "url" = true ∧
    hasCol musicCols "title" = true ∧
    hasCol musicCols "status" = false ∧
    hasCol videoUUIDCols "status" = false ∧
    hasCol videoUUIDCols "version" = false ∧
    hasCol videoUUIDCols "drmProtected" = false := by decide

/-- C9: with the store enforcing the unique column declarations of User,
inserting a second user with an identical non-null email (or an identical
present phone number) into a store where the first insert succeeded fails
with ConflictError, and the first user is still in the store — no
violating write overwrites it. -/
theorem c9_user_email_phone_unique (s s1 : List UserRec) (u1 u2 : UserRec)
    (h1 : insertUser s u1 = Except.ok s1) (h2 : u2.email = u1.email) :
    insertUser s1 u2 = Except.error DomainError.conflictError ∧
    u1 ∈ s1 ∧
    (∀ u3 p, u1.phoneNumber = some p → u3.phoneNumber = some p →
      insertUser s1 u3 = Except.error DomainError.conflictError) := by
  unfold insertUser at h1
  split at h1
  · exact Except.noConfusion h1
  · split at h1
    · exact Except.noConfusion h1
    · injection h1 with h1
      subst h1
      refine ⟨?_, by simp, ?_⟩
      · unfold insertUser
        rw [if_pos]
        simp [List.any_append, h2]
      · intro u3 p hp1 hp3
        unfold insertUser
        split
        · rfl
        · rw [if_pos]
          rw [hp3]
          simp [List.any_append]
          exact Or.inr hp1

/-- C9 (witness): the uniqueness theorem applied to concrete users sharing
an email, respectively a phone number. -/
theorem c9_user_unique_witness :
    insertUser [] userA = Except.ok [userA] ∧
    userB.email = userA.email ∧
    insertUser [userA] userB = Except.error DomainError.conflictError ∧
    userA.phoneNumber = some "111" ∧
    userC.phoneNumber = some "111" ∧
    insertUser [userA] userC = Except.error DomainError.conflictError :=
  ⟨rfl, rfl,
   (c9_user_email_phone_unique [] [userA] userA userB rfl rfl).1,
   rfl, rfl,
   (c9_user_email_phone_unique [] [userA] userA userB rfl rfl).2.2 userC
     "111" rfl rfl⟩

/-- C10: when the message value is unset or falsy (such as the empty
string), the guard `if (this.message)` makes the compression hook a no-op
and the entity is persisted exactly as-is, uncompressed. -/
theorem c10_falsy_message_hook_noop (n : Notification)
    (h : n.message.truthy = false) : compressMessage n = n := by
  unfold compressMessage compressMessageWith
  rw [h]
  simp

/-- C10 (witness): the no-op theorem applied to a notification whose
message is the empty string. -/
theorem c10_falsy_message_witness :
    (Notification.mk none none Channel.whatsapp (MsgVal.str [])
      NStatus.pending 0 none none none).message.truthy = false ∧
    compressMessage (Notification.mk none none Channel.whatsapp
      (MsgVal.str []) NStatus.pending 0 none none none) =
      Notification.mk none none Channel.whatsapp (MsgVal.str [])
        NStatus.pending 0 none none none :=
  ⟨rfl, c10_falsy_message_hook_noop _ rfl⟩

end Wrappai
